import Mathlib

/-!
Verification of the membrane-api session-and-stream lifecycle coordinator.

This file shallowly embeds the coordinator code of `src/server.ts` and
`src/sessions.ts`: the TTL-expiring session store, the active-stream
registry (a JS `Map` from stream id to `AbortController`), and the three
SSE handlers (`POST /v1/stream`, `POST /v1/continue`,
`POST /v1/context/stream`) together with the abort endpoint
(`POST /v1/abort/:streamId`) and the request-normalisation helper
`buildNormalizedRequest`.

Effects are made explicit: `Date.now()` becomes a `now : Nat` parameter,
generated identifiers become parameters, the external invocation
collaborator (`membrane.stream` / `membrane.complete` /
`processContext`) becomes an oracle value describing its outcome (a
normal response, an aborted response, or a thrown error, together with
the callback events it fired), and the JS `Map`s become association
maps threaded through the handlers.
-/

set_option maxRecDepth 4000

namespace MembraneApi

/-- Association map with string keys, embedding the JS `Map` used for
`sessions` and `activeStreams`.  `set` replaces an existing binding in
place (JS `Map.set` keeps insertion order), `delete` removes the key. -/
structure SMap (α : Type) where
  entries : List (String × α)
deriving DecidableEq, Repr

namespace SMap

def empty {α : Type} : SMap α := ⟨[]⟩

def get {α : Type} (m : SMap α) (k : String) : Option α :=
  go m.entries
where
  go : List (String × α) → Option α
    | [] => none
    | (k', v) :: rest => if k' = k then some v else go rest

def setEntries {α : Type} : List (String × α) → String → α → List (String × α)
  | [], k, v => [(k, v)]
  | (k', v') :: rest, k, v =>
      if k' = k then (k, v) :: rest else (k', v') :: setEntries rest k v

def set {α : Type} (m : SMap α) (k : String) (v : α) : SMap α :=
  ⟨setEntries m.entries k v⟩

def delEntries {α : Type} : List (String × α) → String → List (String × α)
  | [], _ => []
  | (k', v') :: rest, k =>
      if k' = k then delEntries rest k else (k', v') :: delEntries rest k

def delete {α : Type} (m : SMap α) (k : String) : SMap α :=
  ⟨delEntries m.entries k⟩

def size {α : Type} (m : SMap α) : Nat := m.entries.length

theorem getGo_delEntries_self {α : Type} (k : String) :
    ∀ l : List (String × α), SMap.get.go k (delEntries l k) = none
  | [] => rfl
  | (k', v') :: rest => by
      by_cases h : k' = k
      · simp [delEntries, h, getGo_delEntries_self k rest]
      · simp [delEntries, h, SMap.get.go, getGo_delEntries_self k rest]

theorem get_delete_self {α : Type} (m : SMap α) (k : String) :
    (m.delete k).get k = none :=
  getGo_delEntries_self k m.entries

theorem getGo_delEntries_ne {α : Type} (k j : String) (h : j ≠ k) :
    ∀ l : List (String × α),
      SMap.get.go j (delEntries l k) = SMap.get.go j l
  | [] => rfl
  | (k', v') :: rest => by
      have hkj : k ≠ j := fun hkj => h hkj.symm
      by_cases hk : k' = k
      · have hj : k' ≠ j := by rw [hk]; exact hkj
        simp [delEntries, hk, SMap.get.go, hj, hkj, getGo_delEntries_ne k j h rest]
      · by_cases hj : k' = j
        · simp [delEntries, hk, SMap.get.go, hj, h]
        · simp [delEntries, hk, SMap.get.go, hj, getGo_delEntries_ne k j h rest]

theorem get_delete_ne {α : Type} (m : SMap α) (k j : String) (h : j ≠ k) :
    (m.delete k).get j = m.get j :=
  getGo_delEntries_ne k j h m.entries

theorem getGo_setEntries_self {α : Type} (k : String) (v : α) :
    ∀ l : List (String × α), SMap.get.go k (setEntries l k v) = some v
  | [] => by simp [setEntries, SMap.get.go]
  | (k', v') :: rest => by
      by_cases h : k' = k
      · simp [setEntries, h, SMap.get.go]
      · simp [setEntries, h, SMap.get.go, getGo_setEntries_self k v rest]

theorem get_set_self {α : Type} (m : SMap α) (k : String) (v : α) :
    (m.set k v).get k = some v :=
  getGo_setEntries_self k v m.entries

theorem getGo_setEntries_ne {α : Type} (k j : String) (v : α) (h : j ≠ k) :
    ∀ l : List (String × α),
      SMap.get.go j (setEntries l k v) = SMap.get.go j l
  | [] => by
      have : k ≠ j := fun hkj => h hkj.symm
      simp [setEntries, SMap.get.go, this]
  | (k', v') :: rest => by
      have hkj : k ≠ j := fun hkj => h hkj.symm
      by_cases hk : k' = k
      · have hj : k' ≠ j := by rw [hk]; exact hkj
        simp [setEntries, hk, SMap.get.go, hj, hkj]
      · by_cases hj : k' = j
        · simp [setEntries, hk, SMap.get.go, hj, h]
        · simp [setEntries, hk, SMap.get.go, hj, getGo_setEntries_ne k j v h rest]

theorem get_set_ne {α : Type} (m : SMap α) (k j : String) (v : α) (h : j ≠ k) :
    (m.set k v).get j = m.get j :=
  getGo_setEntries_ne k j v h m.entries

theorem delEntries_delEntries {α : Type} (k : String) :
    ∀ l : List (String × α),
      delEntries (delEntries l k) k = delEntries l k
  | [] => rfl
  | (k', v') :: rest => by
      by_cases h : k' = k
      · simp [delEntries, h, delEntries_delEntries k rest]
      · simp [delEntries, h, delEntries_delEntries k rest]

theorem delete_delete {α : Type} (m : SMap α) (k : String) :
    (m.delete k).delete k = m.delete k :=
  congrArg SMap.mk (delEntries_delEntries k m.entries)

theorem setEntries_length_of_getGo_none {α : Type} (k : String) (v : α) :
    ∀ l : List (String × α), SMap.get.go k l = none →
      (setEntries l k v).length = l.length + 1
  | [], _ => rfl
  | (k', v') :: rest, h => by
      by_cases hk : k' = k
      · simp [SMap.get.go, hk] at h
      · simp [SMap.get.go, hk] at h
        simp [setEntries, hk, setEntries_length_of_getGo_none k v rest h]

theorem size_set_of_get_none {α : Type} (m : SMap α) (k : String) (v : α)
    (h : m.get k = none) : (m.set k v).size = m.size + 1 :=
  setEntries_length_of_getGo_none k v m.entries h

end SMap

/-! ## Data model (types.ts / @animalabs/membrane shapes used by the core) -/

/-- Token usage totals, `{ inputTokens, outputTokens }`. -/
structure Usage where
  inputTokens : Nat
  outputTokens : Nat
deriving DecidableEq, Repr

/-- A content block of a conversation message.  Opaque payloads (tool
input, structured content) are carried as strings. -/
inductive ContentBlock
  | text (text : String)
  | toolUse (id : String) (name : String) (input : String)
  | toolResult (toolUseId : String) (content : String) (isError : Option Bool)
  | other (btype : String) (payload : String)
deriving DecidableEq, Repr

/-- A tool call requested by the model. -/
structure ToolCall where
  id : String
  name : String
  input : String
deriving DecidableEq, Repr

/-- A tool result supplied by the client
(`{ toolUseId, content, isError? }`). -/
structure ToolResult where
  toolUseId : String
  content : String
  isError : Option Bool
deriving DecidableEq, Repr

/-- A normalized conversation message. -/
structure Message where
  participant : String
  content : List ContentBlock
deriving DecidableEq, Repr

/-- A message as received over the API: content is either a plain string
or a block list. -/
inductive ApiContent
  | str (s : String)
  | blocks (bs : List ContentBlock)
deriving DecidableEq, Repr

structure ApiMessage where
  participant : String
  content : ApiContent
deriving DecidableEq, Repr

/-- A tool definition (`{ name, description, inputSchema }`); the JSON
schema is opaque. -/
structure ToolDef where
  name : String
  description : Option String
  inputSchema : String
deriving DecidableEq, Repr

/-- Generation config inside a normalized request.  `temperature` is
carried as an opaque numeric code (the handlers only default and forward
it). -/
structure GenConfig where
  model : String
  maxTokens : Nat
  temperature : Nat
  thinking : Option Bool
deriving DecidableEq, Repr

/-- The normalized request handed to the invocation collaborator. -/
structure NormalizedRequest where
  messages : List Message
  system : Option String
  tools : Option (List ToolDef)
  toolMode : Option String
  config : GenConfig
  stopSequences : Option (List String)
  promptCaching : Option Bool
  cacheTtl : Option String
  maxParticipantsForStop : Option Nat
  providerParams : Option String
deriving DecidableEq, Repr

/-- Membrane construction options stored for continuation
(`{ formatter, retry }`), opaque payloads. -/
structure MembraneOptions where
  formatter : Option String
  retry : Option String
deriving DecidableEq, Repr

/-- The parsed body of `POST /v1/complete` / `POST /v1/stream`
(`CompletionRequest` after `CompletionRequestSchema.safeParse`
succeeded).  `continueFrom` is the tool-continuation field the
fresh-stream endpoint rejects; its payload is opaque. -/
structure CompletionRequest where
  messages : List ApiMessage
  system : Option String
  tools : Option (List ToolDef)
  toolMode : Option String
  model : Option String
  maxTokens : Option Nat
  temperature : Option Nat
  thinking : Option Bool
  stopSequences : Option (List String)
  promptCaching : Option Bool
  cacheTtl : Option String
  maxParticipantsForStop : Option Nat
  providerParams : Option String
  provider : Option String
  apiKey : Option String
  providerConfig : Option String
  formatter : Option String
  retry : Option String
  continueFrom : Option String
deriving DecidableEq, Repr

/-- Server configuration (config.ts); only the fields the handlers read. -/
structure Config where
  defaultProvider : String
  defaultModel : String
  maxTokensLimit : Nat
  requestTimeoutMs : Nat
deriving DecidableEq, Repr

/-- A successful (non-aborted) collaborator response.  `modelActual`
embeds `response.details.model.actual`. -/
structure NormalizedResponse where
  content : List ContentBlock
  rawAssistantText : String
  toolCalls : List ToolCall
  toolResults : List ToolResult
  stopReason : String
  usage : Usage
  modelActual : String
deriving DecidableEq, Repr

/-- An aborted collaborator response (cancellation observed mid-flight). -/
structure AbortedResponse where
  partialContent : Option (List ContentBlock)
  rawAssistantText : Option String
  toolCalls : Option (List ToolCall)
  partialUsage : Option Usage
deriving DecidableEq, Repr

/-! ## Session store (sessions.ts) -/

/-- A stored session (`SessionState` of sessions.ts).  Opaque credential
payloads (`providerConfig`) are carried as strings. -/
structure SessionState where
  id : String
  createdAt : Nat
  expiresAt : Nat
  provider : String
  apiKey : Option String
  providerConfig : Option String
  membraneOptions : Option MembraneOptions
  request : NormalizedRequest
  rawAssistantText : String
  contentBlocks : List ContentBlock
  toolCalls : List ToolCall
  executedToolResults : List ToolResult
  usage : Usage
deriving DecidableEq, Repr

/-- `5 * 60 * 1000`, the default session TTL used both by `createSession`
(as the `ttlMs` default) and, hard-coded, by `updateSession`. -/
def DEFAULT_SESSION_TTL_MS : Nat := 5 * 60 * 1000

/-- The `state` argument of `createSession`. -/
structure SessionInitState where
  rawAssistantText : String
  contentBlocks : List ContentBlock
  toolCalls : List ToolCall
  executedToolResults : List ToolResult
  usage : Usage
deriving DecidableEq, Repr

/-- The `options` argument of `createSession`. -/
structure CreateSessionOptions where
  apiKey : Option String
  providerConfig : Option String
  membraneOptions : Option MembraneOptions
  ttlMs : Option Nat
deriving DecidableEq, Repr

/-- `createSession` of sessions.ts.  The generated id and `Date.now()`
are explicit parameters.  Returns the new record and the updated map. -/
def createSession (sessions : SMap SessionState) (provider : String)
    (request : NormalizedRequest) (state : SessionInitState)
    (options : CreateSessionOptions) (id : String) (now : Nat) :
    SessionState × SMap SessionState :=
  let ttlMs := options.ttlMs.getD DEFAULT_SESSION_TTL_MS
  let session : SessionState := {
    id := id
    createdAt := now
    expiresAt := now + ttlMs
    provider := provider
    apiKey := options.apiKey
    providerConfig := options.providerConfig
    membraneOptions := options.membraneOptions
    request := request
    rawAssistantText := state.rawAssistantText
    contentBlocks := state.contentBlocks
    toolCalls := state.toolCalls
    executedToolResults := state.executedToolResults
    usage := state.usage }
  (session, sessions.set id session)

/-- `getSession` of sessions.ts: lookup with lazy eviction of an expired
record.  Returns the result and the possibly-evicted map. -/
def getSession (sessions : SMap SessionState) (id : String) (now : Nat) :
    Option SessionState × SMap SessionState :=
  match sessions.get id with
  | none => (none, sessions)
  | some session =>
      if session.expiresAt < now then (none, sessions.delete id)
      else (some session, sessions)

/-- The `updates` argument of `updateSession`
(`Partial<Pick<SessionState, ...>>`). -/
structure SessionUpdates where
  rawAssistantText : Option String
  contentBlocks : Option (List ContentBlock)
  toolCalls : Option (List ToolCall)
  executedToolResults : Option (List ToolResult)
  usage : Option Usage
deriving DecidableEq, Repr

/-- `Object.assign(session, updates)`: each supplied field replaces the
stored one. -/
def applyUpdates (s : SessionState) (u : SessionUpdates) : SessionState :=
  { s with
    rawAssistantText := u.rawAssistantText.getD s.rawAssistantText
    contentBlocks := u.contentBlocks.getD s.contentBlocks
    toolCalls := u.toolCalls.getD s.toolCalls
    executedToolResults := u.executedToolResults.getD s.executedToolResults
    usage := u.usage.getD s.usage }

/-- `updateSession` of sessions.ts: `getSession`, then `Object.assign`,
then `session.expiresAt = Date.now() + 5 * 60 * 1000` (note: the fixed
default, not the ttl the session was created with). -/
def updateSession (sessions : SMap SessionState) (id : String)
    (updates : SessionUpdates) (now : Nat) :
    Option SessionState × SMap SessionState :=
  match getSession sessions id now with
  | (none, sessions1) => (none, sessions1)
  | (some session, sessions1) =>
      let merged :=
        { applyUpdates session updates with
          expiresAt := now + DEFAULT_SESSION_TTL_MS }
      (some merged, sessions1.set id merged)

/-- `deleteSession` of sessions.ts: unconditional removal. -/
def deleteSession (sessions : SMap SessionState) (id : String) :
    SMap SessionState :=
  sessions.delete id

/-- `getSessionCount` of sessions.ts. -/
def getSessionCount (sessions : SMap SessionState) : Nat :=
  sessions.size

/-! ## SSE events and error parsing (server.ts) -/

/-- Error payload `{ code, message, retryable }`. -/
structure ErrorInfo where
  code : String
  message : String
  retryable : Bool
deriving DecidableEq, Repr

/-- The context state echoed by `/v1/context/stream` responses. -/
structure ContextState where
  cacheMarkers : List Nat
  windowMessageIds : List String
  messagesSinceRoll : Nat
  tokensSinceRoll : Nat
  inGracePeriod : Bool
  lastRollTime : Nat
  cachedStartMessageId : Option String
deriving DecidableEq, Repr

/-- The context info echoed by `/v1/context/stream` responses. -/
structure ContextInfo where
  didRoll : Bool
  messagesDropped : Nat
  messagesKept : Nat
  cacheMarkers : List Nat
  cachedTokens : Nat
  uncachedTokens : Nat
  totalTokens : Nat
  hardLimitHit : Bool
  cachedStartMessageId : Option String
deriving DecidableEq, Repr

/-- `result.context` attached by the context-stream handler. -/
structure ContextPayload where
  state : ContextState
  info : ContextInfo
deriving DecidableEq, Repr

/-- The `done` event payload (`buildCompletionResponse`, or the inline
object built on the aborted path, which omits `requiresToolResults`). -/
structure CompletionResponse where
  content : List ContentBlock
  rawAssistantText : String
  toolCalls : List ToolCall
  toolResults : List ToolResult
  stopReason : String
  usage : Usage
  model : String
  provider : String
  durationMs : Nat
  requiresToolResults : Option Bool
  context : Option ContextPayload
deriving DecidableEq, Repr

/-- The SSE event catalog, one constructor per event name. -/
inductive Event
  | stream_start (streamId : String)
  | chunk (text : String) (ctype : String) (visible : Bool) (blockIndex : Nat)
  | block_start (index : Nat) (btype : String)
  | block_complete (index : Nat) (btype : String) (content : Option String)
  | pre_tool_content (text : String)
  | usage (u : Usage)
  | tool_calls (calls : List ToolCall) (sessionId : String)
  | done (d : CompletionResponse)
  | error (e : ErrorInfo)
deriving DecidableEq, Repr

/-- A callback event fired by `membrane.stream` while the invocation is
in flight, before the handler applies its defaults.  The collaborator's
callbacks can only produce chunk / block / pre-tool / usage events. -/
inductive MidEvent
  | chunk (text : String) (ctype : Option String) (visible : Option Bool)
      (blockIndex : Option Nat)
  | block_start (index : Nat) (btype : String)
  | block_complete (index : Nat) (btype : String) (content : Option String)
  | preTool (text : String)
  | usageEvt (u : Usage)
deriving DecidableEq, Repr

/-- How the stream handlers forward a callback event to the transport
(the `onChunk` / `onBlock` / `onPreToolContent` / `onUsage` closures of
`/v1/stream` and `/v1/continue`). -/
def midToEvent : MidEvent → Event
  | .chunk text ctype visible blockIndex =>
      .chunk text (ctype.getD "text") (visible.getD true) (blockIndex.getD 0)
  | .block_start index btype => .block_start index btype
  | .block_complete index btype content => .block_complete index btype content
  | .preTool text => .pre_tool_content text
  | .usageEvt u => .usage u

/-- The `code` property of a thrown error: absent, present but not a
string, or a string. -/
inductive ThrownCode
  | absent
  | nonString
  | str (s : String)
deriving DecidableEq, Repr

/-- A value thrown by the collaborator (`catch (error)`). -/
structure ThrownError where
  isErrorInstance : Bool
  code : ThrownCode
  message : String
deriving DecidableEq, Repr

/-- `parseError` of server.ts. -/
def parseError (e : ThrownError) : ErrorInfo :=
  if e.isErrorInstance then
    match e.code with
    | .str c =>
        { code := c
          message := e.message
          retryable := ["rate_limit", "overloaded", "timeout"].contains c }
    | .nonString => { code := "unknown_error", message := e.message, retryable := false }
    | .absent => { code := "internal_error", message := e.message, retryable := false }
  else { code := "unknown_error", message := e.message, retryable := false }

/-- `handleError`'s status mapping for non-streaming failures. -/
def errorStatusCode (code : String) : Nat :=
  if code = "rate_limit" then 429
  else if code = "unauthorized" then 401
  else if code = "invalid_request" then 400
  else if code = "not_found" then 404
  else 500

/-! ## Active-stream registry and request normalisation (server.ts) -/

/-- The registry value: the `AbortController`'s aborted flag. -/
abbrev StreamRegistry := SMap Bool

/-- `activeStreams.set(streamId, new AbortController())` — the inline
registration performed by the three streaming handlers.  A plain JS
`Map.set`: it silently overwrites an existing binding. -/
def registerStream (streams : StreamRegistry) (streamId : String) :
    StreamRegistry :=
  streams.set streamId false

/-- `cleanupStream` of server.ts: unconditional removal. -/
def cleanupStream (streams : StreamRegistry) (streamId : String) :
    StreamRegistry :=
  streams.delete streamId

/-- A registry operation, recorded in handler-run traces in the order the
handler performs it. -/
inductive RegOp
  | set (streamId : String)
  | del (streamId : String)
deriving DecidableEq, Repr

/-- `buildNormalizedRequest` of server.ts. -/
def buildNormalizedRequest (req : CompletionRequest) (config : Config) :
    NormalizedRequest :=
  let messages := req.messages.map (fun m =>
    { participant := m.participant
      content := match m.content with
        | .str s => [ContentBlock.text s]
        | .blocks bs => bs })
  { messages := messages
    system := req.system
    tools := req.tools
    toolMode := req.toolMode
    config := {
      model := req.model.getD config.defaultModel
      maxTokens := min (req.maxTokens.getD 4096) config.maxTokensLimit
      temperature := req.temperature.getD 1
      thinking := req.thinking }
    stopSequences := req.stopSequences
    promptCaching := req.promptCaching
    cacheTtl := req.cacheTtl
    maxParticipantsForStop := req.maxParticipantsForStop
    providerParams := req.providerParams }

/-- `buildCompletionResponse` of server.ts. -/
def buildCompletionResponse (response : NormalizedResponse)
    (provider : String) (durationMs : Nat) : CompletionResponse :=
  { content := response.content
    rawAssistantText := response.rawAssistantText
    toolCalls := response.toolCalls
    toolResults := response.toolResults
    stopReason := response.stopReason
    usage := response.usage
    model := response.modelActual
    provider := provider
    durationMs := durationMs
    requiresToolResults :=
      some (response.toolCalls.length > 0 && response.stopReason == "tool_use")
    context := none }

/-! ## Streaming handlers (server.ts) -/

/-- Outcome of one `membrane.stream(...)` invocation: the callback
events it fired, and either a normal response, an aborted response, or a
thrown error. -/
inductive StreamOutcome
  | normal (mid : List MidEvent) (resp : NormalizedResponse)
  | aborted (mid : List MidEvent) (ab : AbortedResponse)
  | thrown (mid : List MidEvent) (e : ThrownError)
deriving DecidableEq, Repr

/-- Result of one full run of a streaming handler: the SSE events
written, the final stores, the registry operations performed (in order),
whether the invocation collaborator was called, and the normalized
request it was called with (if it was). -/
structure StreamRunResult where
  events : List Event
  sessions : SMap SessionState
  streams : StreamRegistry
  regOps : List RegOp
  invoked : Bool
  sentRequest : Option NormalizedRequest
deriving DecidableEq, Repr

/-- The `error` event sent when a fresh-stream request carries
`continueFrom`. -/
def useContinueError : ErrorInfo :=
  { code := "use_continue_endpoint"
    message :=
      "To continue with tool results, use POST /v1/continue with sessionId and toolResults"
    retryable := false }

/-- The result of the `createMembrane(provider, apiKey, providerConfig,
...)` call at the top of the try block: it returns an adapter, or throws
(providers.ts raises e.g. `No API key for Anthropic...` when neither the
request nor the server configuration resolves a credential). -/
inductive MembraneInit
  | ok
  | failed (e : ThrownError)
deriving DecidableEq, Repr

/-- The `POST /v1/stream` handler (after a successful body parse).
`streamId`/`sessionId` are the generated identifiers, `now` is
`Date.now()` at session creation, `durationMs` the measured round
duration, `minit` the outcome of the `createMembrane` call, `outcome`
the collaborator oracle.  The handler registers the stream before the
SSE headers and emits `stream_start`; inside the try block it first
constructs the membrane adapter — if that throws, the catch block emits
the parsed error and the `continueFrom` check is never reached — then
rejects `continueFrom` bodies (explicit `cleanupStream` plus the
`finally` cleanup), and otherwise invokes the collaborator and emits the
round's terminal events; the `finally` block always removes the
stream. -/
def streamHandler (config : Config) (req : CompletionRequest)
    (streamId sessionId : String) (now durationMs : Nat)
    (minit : MembraneInit) (outcome : StreamOutcome)
    (sessions0 : SMap SessionState) (streams0 : StreamRegistry) :
    StreamRunResult :=
  let provider := req.provider.getD config.defaultProvider
  let streams1 := registerStream streams0 streamId
  let ev0 := [Event.stream_start streamId]
  match minit with
  | .failed e =>
      { events := ev0 ++ [Event.error (parseError e)]
        sessions := sessions0
        streams := cleanupStream streams1 streamId
        regOps := [RegOp.set streamId, RegOp.del streamId]
        invoked := false
        sentRequest := none }
  | .ok =>
  if req.continueFrom.isSome then
    { events := ev0 ++ [Event.error useContinueError]
      sessions := sessions0
      streams := cleanupStream (cleanupStream streams1 streamId) streamId
      regOps := [RegOp.set streamId, RegOp.del streamId, RegOp.del streamId]
      invoked := false
      sentRequest := none }
  else
    let normalizedRequest := buildNormalizedRequest req config
    match outcome with
    | .normal mid resp =>
        let midEvs := mid.map midToEvent
        if resp.toolCalls.length > 0 && resp.stopReason == "tool_use" then
          let created := createSession sessions0 provider normalizedRequest
            { rawAssistantText := resp.rawAssistantText
              contentBlocks := resp.content
              toolCalls := resp.toolCalls
              executedToolResults := []
              usage := resp.usage }
            { apiKey := req.apiKey
              providerConfig := req.providerConfig
              membraneOptions :=
                some { formatter := req.formatter, retry := req.retry }
              ttlMs := none }
            sessionId now
          { events := ev0 ++ midEvs ++
              [Event.tool_calls resp.toolCalls created.1.id,
               Event.done (buildCompletionResponse resp provider durationMs)]
            sessions := created.2
            streams := cleanupStream streams1 streamId
            regOps := [RegOp.set streamId, RegOp.del streamId]
            invoked := true
            sentRequest := some normalizedRequest }
        else
          { events := ev0 ++ midEvs ++
              [Event.done (buildCompletionResponse resp provider durationMs)]
            sessions := sessions0
            streams := cleanupStream streams1 streamId
            regOps := [RegOp.set streamId, RegOp.del streamId]
            invoked := true
            sentRequest := some normalizedRequest }
    | .aborted mid ab =>
        { events := ev0 ++ mid.map midToEvent ++
            [Event.done {
              content := ab.partialContent.getD []
              rawAssistantText := ab.rawAssistantText.getD ""
              toolCalls := ab.toolCalls.getD []
              toolResults := []
              stopReason := "end_turn"
              usage := ab.partialUsage.getD { inputTokens := 0, outputTokens := 0 }
              model := req.model.getD config.defaultModel
              provider := provider
              durationMs := durationMs
              requiresToolResults := none
              context := none }]
          sessions := sessions0
          streams := cleanupStream streams1 streamId
          regOps := [RegOp.set streamId, RegOp.del streamId]
          invoked := true
          sentRequest := some normalizedRequest }
    | .thrown mid e =>
        { events := ev0 ++ mid.map midToEvent ++ [Event.error (parseError e)]
          sessions := sessions0
          streams := cleanupStream streams1 streamId
          regOps := [RegOp.set streamId, RegOp.del streamId]
          invoked := true
          sentRequest := some normalizedRequest }

/-- The raw body of `POST /v1/continue`.  `sessionId` is `none` when the
field is absent; `toolResults` is `none` when the field is absent or not
an array. -/
structure ContinueBody where
  sessionId : Option String
  toolResults : Option (List ToolResult)
deriving DecidableEq, Repr

/-- `!body.sessionId || !Array.isArray(body.toolResults)` — the guard of
the continuation handler (`""` is falsy in JS). -/
def continueBodyInvalid (body : ContinueBody) : Bool :=
  (match body.sessionId with
   | none => true
   | some s => s == "") || body.toolResults.isNone

/-- What a continuation run sends back: a non-SSE JSON rejection or the
SSE event sequence. -/
inductive ContinueOut
  | rejected (status : Nat) (code : String)
  | sse (events : List Event)
deriving DecidableEq, Repr

/-- Result of one full run of the `POST /v1/continue` handler. -/
structure ContinueRunResult where
  out : ContinueOut
  sessions : SMap SessionState
  streams : StreamRegistry
  regOps : List RegOp
  invoked : Bool
  sentRequest : Option NormalizedRequest
deriving DecidableEq, Repr

/-- The `POST /v1/continue` handler.  Validates the body, looks up the
session (with lazy eviction), registers a fresh stream, pushes the tool
results directly onto the stored session record
(`session.executedToolResults.push(...)`), synthesizes the two
continuation turns, invokes the collaborator, and on a further tool-use
stop merges the round into the session through `updateSession`;
otherwise it deletes the session.  The `finally` block always removes
the stream. -/
def continueHandler (body : ContinueBody)
    (streamId : String) (now durationMs : Nat)
    (outcome : StreamOutcome)
    (sessions0 : SMap SessionState) (streams0 : StreamRegistry) :
    ContinueRunResult :=
  if continueBodyInvalid body then
    { out := .rejected 400 "invalid_request"
      sessions := sessions0
      streams := streams0
      regOps := []
      invoked := false
      sentRequest := none }
  else
    let sid := body.sessionId.getD ""
    match getSession sessions0 sid now with
    | (none, sessions1) =>
        { out := .rejected 404 "session_not_found"
          sessions := sessions1
          streams := streams0
          regOps := []
          invoked := false
          sentRequest := none }
    | (some session, sessions1) =>
        let streams1 := registerStream streams0 streamId
        let ev0 := [Event.stream_start streamId]
        let toolResults := body.toolResults.getD []
        let session1 :=
          { session with
            executedToolResults := session.executedToolResults ++ toolResults }
        let sessions2 := sessions1.set sid session1
        let messages := session.request.messages ++
          [ { participant := "Claude", content := session.contentBlocks },
            { participant := "User"
              content := toolResults.map (fun r =>
                ContentBlock.toolResult r.toolUseId r.content r.isError) } ]
        let continuedRequest := { session.request with messages := messages }
        match outcome with
        | .normal mid resp =>
            let midEvs := mid.map midToEvent
            if resp.toolCalls.length > 0 && resp.stopReason == "tool_use" then
              let updated := updateSession sessions2 sid
                { rawAssistantText :=
                    some (session.rawAssistantText ++ resp.rawAssistantText)
                  contentBlocks := some resp.content
                  toolCalls := some resp.toolCalls
                  executedToolResults := none
                  usage := some {
                    inputTokens :=
                      session.usage.inputTokens + resp.usage.inputTokens
                    outputTokens :=
                      session.usage.outputTokens + resp.usage.outputTokens } }
                now
              { out := .sse (ev0 ++ midEvs ++
                  [Event.tool_calls resp.toolCalls sid,
                   Event.done
                     (buildCompletionResponse resp session.provider durationMs)])
                sessions := updated.2
                streams := cleanupStream streams1 streamId
                regOps := [RegOp.set streamId, RegOp.del streamId]
                invoked := true
                sentRequest := some continuedRequest }
            else
              { out := .sse (ev0 ++ midEvs ++
                  [Event.done
                     (buildCompletionResponse resp session.provider durationMs)])
                sessions := deleteSession sessions2 sid
                streams := cleanupStream streams1 streamId
                regOps := [RegOp.set streamId, RegOp.del streamId]
                invoked := true
                sentRequest := some continuedRequest }
        | .aborted mid ab =>
            { out := .sse (ev0 ++ mid.map midToEvent ++
                [Event.done {
                  content := ab.partialContent.getD []
                  rawAssistantText := ab.rawAssistantText.getD ""
                  toolCalls := ab.toolCalls.getD []
                  toolResults := []
                  stopReason := "end_turn"
                  usage := ab.partialUsage.getD { inputTokens := 0, outputTokens := 0 }
                  model := session.request.config.model
                  provider := session.provider
                  durationMs := durationMs
                  requiresToolResults := none
                  context := none }])
              sessions := deleteSession sessions2 sid
              streams := cleanupStream streams1 streamId
              regOps := [RegOp.set streamId, RegOp.del streamId]
              invoked := true
              sentRequest := some continuedRequest }
        | .thrown mid e =>
            { out := .sse (ev0 ++ mid.map midToEvent ++
                [Event.error (parseError e)])
              sessions := sessions2
              streams := cleanupStream streams1 streamId
              regOps := [RegOp.set streamId, RegOp.del streamId]
              invoked := true
              sentRequest := some continuedRequest }

/-- Result of one `POST /v1/abort/:streamId` request. -/
structure AbortResult where
  status : Nat
  code : Option String
  abortedFlag : Bool
  streamId : Option String
  signaled : Bool
  streams : StreamRegistry
deriving DecidableEq, Repr

/-- The `POST /v1/abort/:streamId` handler: if the id is registered,
signal the controller (`controller.abort()`), remove the entry, and
report `{ aborted: true, streamId }`; otherwise report 404
`stream_not_found` with no side effect. -/
def abortHandler (streams : StreamRegistry) (streamId : String) :
    AbortResult :=
  match streams.get streamId with
  | none =>
      { status := 404
        code := some "stream_not_found"
        abortedFlag := false
        streamId := none
        signaled := false
        streams := streams }
  | some _ =>
      { status := 200
        code := none
        abortedFlag := true
        streamId := some streamId
        signaled := true
        streams := cleanupStream (streams.set streamId true) streamId }

/-! ## Context-stream handler and non-streaming completion (server.ts) -/

/-- The rolling-window section of a context request. -/
structure RollingConfig where
  threshold : Nat
  buffer : Nat
  grace : Nat
  unit : String
deriving DecidableEq, Repr

/-- The `contextConfig` of a context request; `limits`/`cache` are
opaque payloads. -/
structure ContextConfig where
  rolling : RollingConfig
  limits : Option String
  cache : Option String
deriving DecidableEq, Repr

/-- The parsed body of `POST /v1/context/stream`. -/
structure ContextRequest where
  messages : List ApiMessage
  system : Option String
  tools : Option (List ToolDef)
  model : Option String
  maxTokens : Option Nat
  temperature : Option Nat
  thinking : Option Bool
  provider : Option String
  apiKey : Option String
  providerConfig : Option String
  formatter : Option String
  retry : Option String
  contextConfig : ContextConfig
  contextState : Option ContextState
deriving DecidableEq, Repr

/-- A callback event fired during `processContext`; its option set has
no `onBlock`, and its `onChunk` ignores the metadata. -/
inductive CtxMidEvent
  | chunk (text : String)
  | preTool (text : String)
  | usageEvt (u : Usage)
deriving DecidableEq, Repr

/-- How the context handler forwards a callback event (chunk metadata is
fixed to `'text'`, visible, block 0). -/
def ctxMidToEvent : CtxMidEvent → Event
  | .chunk text => .chunk text "text" true 0
  | .preTool text => .pre_tool_content text
  | .usageEvt u => .usage u

/-- Outcome of one `processContext(...)` call: callback events plus the
returned `{ response, state, info }`, or a thrown error. -/
inductive ContextOutcome
  | normal (mid : List CtxMidEvent) (resp : NormalizedResponse)
      (state : ContextState) (info : ContextInfo)
  | aborted (mid : List CtxMidEvent) (ab : AbortedResponse)
      (state : ContextState) (info : ContextInfo)
  | thrown (mid : List CtxMidEvent) (e : ThrownError)
deriving DecidableEq, Repr

/-- Result of one full run of the `POST /v1/context/stream` handler
(this endpoint never touches the session store). -/
structure ContextRunResult where
  events : List Event
  streams : StreamRegistry
  regOps : List RegOp
  invoked : Bool
deriving DecidableEq, Repr

/-- The `POST /v1/context/stream` handler (after a successful body
parse): registers the stream, emits `stream_start`, runs
`processContext`, emits `done` (with the context payload attached) or
`error`, and always removes the stream in the `finally` block. -/
def contextStreamHandler (config : Config) (req : ContextRequest)
    (streamId : String) (durationMs : Nat)
    (outcome : ContextOutcome) (streams0 : StreamRegistry) :
    ContextRunResult :=
  let provider := req.provider.getD config.defaultProvider
  let streams1 := registerStream streams0 streamId
  let ev0 := [Event.stream_start streamId]
  match outcome with
  | .normal mid resp state info =>
      let result := buildCompletionResponse resp provider durationMs
      let result := { result with context := some { state := state, info := info } }
      { events := ev0 ++ mid.map ctxMidToEvent ++ [Event.done result]
        streams := cleanupStream streams1 streamId
        regOps := [RegOp.set streamId, RegOp.del streamId]
        invoked := true }
  | .aborted mid ab state info =>
      { events := ev0 ++ mid.map ctxMidToEvent ++
          [Event.done {
            content := ab.partialContent.getD []
            rawAssistantText := ab.rawAssistantText.getD ""
            toolCalls := ab.toolCalls.getD []
            toolResults := []
            stopReason := "end_turn"
            usage := ab.partialUsage.getD { inputTokens := 0, outputTokens := 0 }
            model := req.model.getD config.defaultModel
            provider := provider
            durationMs := durationMs
            requiresToolResults := none
            context := some { state := state, info := info } }]
        streams := cleanupStream streams1 streamId
        regOps := [RegOp.set streamId, RegOp.del streamId]
        invoked := true }
  | .thrown mid e =>
      { events := ev0 ++ mid.map ctxMidToEvent ++ [Event.error (parseError e)]
        streams := cleanupStream streams1 streamId
        regOps := [RegOp.set streamId, RegOp.del streamId]
        invoked := true }

/-- Outcome of one `membrane.complete(...)` call. -/
inductive CompleteOutcome
  | ok (resp : NormalizedResponse)
  | thrown (e : ThrownError)
deriving DecidableEq, Repr

/-- Result of one `POST /v1/complete` request. -/
structure CompleteResult where
  status : Nat
  response : Option CompletionResponse
  errorInfo : Option ErrorInfo
  sentRequest : Option NormalizedRequest
deriving DecidableEq, Repr

/-- The `POST /v1/complete` handler (after a successful body parse):
builds the normalized request, calls the collaborator, and returns the
completion payload or a structured error (`handleError`). -/
def completeHandler (config : Config) (req : CompletionRequest)
    (durationMs : Nat) (outcome : CompleteOutcome) : CompleteResult :=
  let provider := req.provider.getD config.defaultProvider
  let normalizedRequest := buildNormalizedRequest req config
  match outcome with
  | .ok resp =>
      { status := 200
        response := some (buildCompletionResponse resp provider durationMs)
        errorInfo := none
        sentRequest := some normalizedRequest }
  | .thrown e =>
      let info := parseError e
      { status := errorStatusCode info.code
        response := none
        errorInfo := some info
        sentRequest := some normalizedRequest }

/-! ## Observations and concrete fixtures -/

/-- Observation: is an SSE event a `tool_calls` event? -/
def isToolCallsEvent : Event → Bool
  | .tool_calls _ _ => true
  | _ => false

theorem isToolCallsEvent_midToEvent (m : MidEvent) :
    isToolCallsEvent (midToEvent m) = false := by
  cases m <;> rfl

theorem any_isToolCallsEvent_map (l : List MidEvent) :
    (l.map midToEvent).any isToolCallsEvent = false := by
  induction l with
  | nil => rfl
  | cons m rest ih => simp [isToolCallsEvent_midToEvent, ih]

/-- A server configuration with the documented defaults. -/
def demoConfig : Config :=
  { defaultProvider := "anthropic"
    defaultModel := "claude-sonnet-4-20250514"
    maxTokensLimit := 32000
    requestTimeoutMs := 300000 }

/-- A minimal well-formed completion request. -/
def demoCompletionRequest : CompletionRequest :=
  { messages := [{ participant := "User", content := .str "hello" }]
    system := none
    tools := none
    toolMode := none
    model := none
    maxTokens := none
    temperature := none
    thinking := none
    stopSequences := none
    promptCaching := none
    cacheTtl := none
    maxParticipantsForStop := none
    providerParams := none
    provider := none
    apiKey := none
    providerConfig := none
    formatter := none
    retry := none
    continueFrom := none }

def demoToolCall : ToolCall :=
  { id := "tu_1", name := "search", input := "\x7b\x7d" }

def demoToolResult : ToolResult :=
  { toolUseId := "tu_1", content := "42", isError := none }

/-- A collaborator response that stops for tool use with one call. -/
def demoToolUseResponse : NormalizedResponse :=
  { content := [ContentBlock.text "looking", ContentBlock.toolUse "tu_1" "search" "\x7b\x7d"]
    rawAssistantText := "looking"
    toolCalls := [demoToolCall]
    toolResults := []
    stopReason := "tool_use"
    usage := { inputTokens := 10, outputTokens := 5 }
    modelActual := "claude-sonnet-4-20250514" }

/-- A collaborator response that reports stop reason tool-use but carries
no tool calls. -/
def demoEmptyToolUseResponse : NormalizedResponse :=
  { content := [ContentBlock.text "hm"]
    rawAssistantText := "hm"
    toolCalls := []
    toolResults := []
    stopReason := "tool_use"
    usage := { inputTokens := 3, outputTokens := 2 }
    modelActual := "claude-sonnet-4-20250514" }

/-- A collaborator response that finishes normally. -/
def demoEndTurnResponse : NormalizedResponse :=
  { content := [ContentBlock.text "done"]
    rawAssistantText := "done"
    toolCalls := []
    toolResults := []
    stopReason := "end_turn"
    usage := { inputTokens := 3, outputTokens := 2 }
    modelActual := "claude-sonnet-4-20250514" }

def demoNormalizedRequest : NormalizedRequest :=
  buildNormalizedRequest demoCompletionRequest demoConfig

def demoInitState : SessionInitState :=
  { rawAssistantText := "looking"
    contentBlocks := demoToolUseResponse.content
    toolCalls := [demoToolCall]
    executedToolResults := []
    usage := { inputTokens := 10, outputTokens := 5 } }

def noSessionOptions : CreateSessionOptions :=
  { apiKey := none, providerConfig := none, membraneOptions := none, ttlMs := none }

def noUpdates : SessionUpdates :=
  { rawAssistantText := none, contentBlocks := none, toolCalls := none
    executedToolResults := none, usage := none }

/-- A live suspended session with running usage totals `{in 10, out 5}`. -/
def demoSession : SessionState :=
  { id := "sess_1"
    createdAt := 0
    expiresAt := 1000000
    provider := "anthropic"
    apiKey := none
    providerConfig := none
    membraneOptions := none
    request := demoNormalizedRequest
    rawAssistantText := "looking"
    contentBlocks := demoToolUseResponse.content
    toolCalls := [demoToolCall]
    executedToolResults := []
    usage := { inputTokens := 10, outputTokens := 5 } }

/-- A second-round response reporting usage `{in 3, out 2}` that again
stops for tool use. -/
def demoSecondRoundResponse : NormalizedResponse :=
  { content := [ContentBlock.text "more", ContentBlock.toolUse "tu_2" "search" "\x7b\x7d"]
    rawAssistantText := " and more"
    toolCalls := [{ id := "tu_2", name := "search", input := "\x7b\x7d" }]
    toolResults := []
    stopReason := "tool_use"
    usage := { inputTokens := 3, outputTokens := 2 }
    modelActual := "claude-sonnet-4-20250514" }

def demoThrown : ThrownError :=
  { isErrorInstance := true, code := ThrownCode.str "timeout", message := "upstream timeout" }

def demoContinueBody : ContinueBody :=
  { sessionId := some "sess_1", toolResults := some [demoToolResult] }

def demoContextRequest : ContextRequest :=
  { messages := [{ participant := "User", content := .str "hello" }]
    system := none
    tools := none
    model := none
    maxTokens := none
    temperature := none
    thinking := none
    provider := none
    apiKey := none
    providerConfig := none
    formatter := none
    retry := none
    contextConfig :=
      { rolling := { threshold := 100, buffer := 10, grace := 5, unit := "messages" }
        limits := none
        cache := none }
    contextState := none }

/-! ## Claim C4 — tool_calls emission and session creation -/

/-- C4 counterexample: a fresh-stream round whose response reports stop
reason `tool_use` but carries an empty tool-call list emits no
`tool_calls` event and creates no session — the handler requires
`toolCalls.length > 0` in addition to the stop reason, so the claim as
stated (`tool_calls` and a new session for every round with stop reason
tool-use) is false at this input. -/
theorem toolUse_without_calls_counterexample :
    demoEmptyToolUseResponse.stopReason = "tool_use"
    ∧ (streamHandler demoConfig demoCompletionRequest "str_1" "sess_1" 0 7
        MembraneInit.ok (StreamOutcome.normal [] demoEmptyToolUseResponse)
        SMap.empty SMap.empty).events.any isToolCallsEvent = false
    ∧ (streamHandler demoConfig demoCompletionRequest "str_1" "sess_1" 0 7
        MembraneInit.ok (StreamOutcome.normal [] demoEmptyToolUseResponse)
        SMap.empty SMap.empty).sessions.size = 0 :=
  ⟨rfl, rfl, rfl⟩

/-- C4 amended: for every fresh-stream round whose response has stop
reason tool-use AND a nonempty tool-call list, the handler emits
`tool_calls` strictly before the round's `done` event and creates
exactly one new live session; for every fresh-stream round whose stop
reason is anything else, and for every aborted round, no `tool_calls`
event is emitted and no session is created. -/
theorem tool_calls_emission (config : Config) (req : CompletionRequest)
    (streamId sessionId : String) (now durationMs : Nat)
    (mid mid2 : List MidEvent) (resp : NormalizedResponse)
    (ab : AbortedResponse)
    (sessions0 : SMap SessionState) (streams0 : StreamRegistry)
    (hcf : req.continueFrom = none)
    (hfresh : sessions0.get sessionId = none) :
    (resp.stopReason = "tool_use" → resp.toolCalls ≠ [] →
        (streamHandler config req streamId sessionId now durationMs
            MembraneInit.ok (StreamOutcome.normal mid resp) sessions0
            streams0).events
          = [Event.stream_start streamId] ++ mid.map midToEvent ++
            [Event.tool_calls resp.toolCalls sessionId,
             Event.done (buildCompletionResponse resp
               (req.provider.getD config.defaultProvider) durationMs)]
        ∧ (streamHandler config req streamId sessionId now durationMs
            MembraneInit.ok (StreamOutcome.normal mid resp) sessions0
            streams0).sessions.size
          = sessions0.size + 1)
    ∧ (resp.stopReason ≠ "tool_use" →
        (streamHandler config req streamId sessionId now durationMs
            MembraneInit.ok (StreamOutcome.normal mid resp) sessions0
            streams0).events.any
            isToolCallsEvent = false
        ∧ (streamHandler config req streamId sessionId now durationMs
            MembraneInit.ok (StreamOutcome.normal mid resp) sessions0
            streams0).sessions
          = sessions0)
    ∧ ((streamHandler config req streamId sessionId now durationMs
          MembraneInit.ok (StreamOutcome.aborted mid2 ab) sessions0
          streams0).events.any
          isToolCallsEvent = false
        ∧ (streamHandler config req streamId sessionId now durationMs
            MembraneInit.ok (StreamOutcome.aborted mid2 ab) sessions0
            streams0).sessions
          = sessions0) := by
  refine ⟨?_, ?_, ?_⟩
  · intro htool hcalls
    have hcond : (decide (resp.toolCalls.length > 0)
        && (resp.stopReason == "tool_use")) = true := by
      simp [htool, List.length_pos, hcalls]
    unfold streamHandler
    simp only [hcf, Option.isSome_none, Bool.false_eq_true, if_false, hcond,
      if_true]
    exact ⟨rfl, SMap.size_set_of_get_none _ _ _ hfresh⟩
  · intro hns
    unfold streamHandler
    simp only [hcf, Option.isSome_none, Bool.false_eq_true, if_false]
    split
    · rename_i hc
      exfalso
      have h2 := (Bool.and_eq_true _ _).mp hc
      exact hns (by simpa using h2.2)
    · refine ⟨?_, rfl⟩
      simp [List.any_append, any_isToolCallsEvent_map, isToolCallsEvent]
  · unfold streamHandler
    simp only [hcf, Option.isSome_none, Bool.false_eq_true, if_false]
    refine ⟨?_, trivial⟩
    simp [List.any_append, any_isToolCallsEvent_map, isToolCallsEvent]

/-- Witness for `tool_calls_emission`: a round stopping with one tool
call emits `tool_calls` then `done` and the session count goes from 0
to 1. -/
theorem tool_calls_emission_witness :
    demoCompletionRequest.continueFrom = none
    ∧ (SMap.empty : SMap SessionState).get "sess_1" = none
    ∧ demoToolUseResponse.stopReason = "tool_use"
    ∧ demoToolUseResponse.toolCalls ≠ []
    ∧ (streamHandler demoConfig demoCompletionRequest "str_1" "sess_1" 0 7
        MembraneInit.ok (StreamOutcome.normal [] demoToolUseResponse)
        SMap.empty SMap.empty).events
      = [Event.stream_start "str_1"] ++ ([] : List MidEvent).map midToEvent ++
        [Event.tool_calls demoToolUseResponse.toolCalls "sess_1",
         Event.done (buildCompletionResponse demoToolUseResponse
           (demoCompletionRequest.provider.getD demoConfig.defaultProvider) 7)]
    ∧ (streamHandler demoConfig demoCompletionRequest "str_1" "sess_1" 0 7
        MembraneInit.ok (StreamOutcome.normal [] demoToolUseResponse)
        SMap.empty SMap.empty).sessions.size
      = (SMap.empty : SMap SessionState).size + 1 :=
  ⟨rfl, rfl, rfl, by decide,
   ((tool_calls_emission demoConfig demoCompletionRequest "str_1" "sess_1" 0 7
      [] [] demoToolUseResponse
      { partialContent := none, rawAssistantText := none, toolCalls := none,
        partialUsage := none }
      SMap.empty SMap.empty rfl rfl).1 rfl (by decide)).1,
   ((tool_calls_emission demoConfig demoCompletionRequest "str_1" "sess_1" 0 7
      [] [] demoToolUseResponse
      { partialContent := none, rawAssistantText := none, toolCalls := none,
        partialUsage := none }
      SMap.empty SMap.empty rfl rfl).1 rfl (by decide)).2⟩

/-! ## Claim C10 — output-token budget is capped by the server limit -/

/-- C10: for every accepted completion or streaming request, the
normalized request sent to the collaborator has
`maxTokens = min(requested, maxTokensLimit)`, hence never exceeds the
server limit, and equals `min(4096, maxTokensLimit)` when the request
omits `maxTokens`: when the membrane adapter is constructed and
`continueFrom` is absent the stream handler sends exactly the capped
normalized request, and whatever request any run sends is that capped
one. -/
theorem maxTokens_capped (req : CompletionRequest) (config : Config)
    (streamId sessionId : String) (now durationMs : Nat)
    (minit : MembraneInit) (outcome : StreamOutcome)
    (coutcome : CompleteOutcome)
    (sessions0 : SMap SessionState) (streams0 : StreamRegistry) :
    (buildNormalizedRequest req config).config.maxTokens
        = min (req.maxTokens.getD 4096) config.maxTokensLimit
    ∧ (buildNormalizedRequest req config).config.maxTokens ≤ config.maxTokensLimit
    ∧ (req.maxTokens = none →
        (buildNormalizedRequest req config).config.maxTokens
          = min 4096 config.maxTokensLimit)
    ∧ (completeHandler config req durationMs coutcome).sentRequest
        = some (buildNormalizedRequest req config)
    ∧ (req.continueFrom = none →
        (streamHandler config req streamId sessionId now durationMs
            MembraneInit.ok outcome sessions0 streams0).sentRequest
          = some (buildNormalizedRequest req config))
    ∧ (∀ r, (streamHandler config req streamId sessionId now durationMs
            minit outcome sessions0 streams0).sentRequest = some r →
          r = buildNormalizedRequest req config) := by
  refine ⟨rfl, Nat.min_le_right _ _, ?_, ?_, ?_, ?_⟩
  · intro h
    simp [buildNormalizedRequest, h]
  · cases coutcome <;> rfl
  · intro h
    cases outcome <;>
      (simp only [streamHandler, h, Option.isSome_none, Bool.false_eq_true,
        if_false]
       all_goals first
        | rfl
        | (split <;> rfl))
  · intro r hr
    cases minit with
    | failed e => simp [streamHandler] at hr
    | ok =>
        by_cases h : req.continueFrom.isSome
        · simp [streamHandler, h] at hr
        · cases outcome with
          | normal mid resp =>
              simp only [streamHandler, h, Bool.false_eq_true, if_false] at hr
              split at hr <;> exact (Option.some.inj hr).symm
          | aborted mid ab =>
              simp only [streamHandler, h, Bool.false_eq_true, if_false] at hr
              exact (Option.some.inj hr).symm
          | thrown mid e =>
              simp only [streamHandler, h, Bool.false_eq_true, if_false] at hr
              exact (Option.some.inj hr).symm

/-- Witness for `maxTokens_capped` at a concrete request omitting
`maxTokens`. -/
theorem maxTokens_capped_witness :
    demoCompletionRequest.maxTokens = none
    ∧ demoCompletionRequest.continueFrom = none
    ∧ (buildNormalizedRequest demoCompletionRequest demoConfig).config.maxTokens
        = min 4096 demoConfig.maxTokensLimit
    ∧ (streamHandler demoConfig demoCompletionRequest "str_1" "sess_1" 0 7
        MembraneInit.ok (StreamOutcome.normal [] demoEndTurnResponse)
        SMap.empty SMap.empty).sentRequest
        = some (buildNormalizedRequest demoCompletionRequest demoConfig) :=
  ⟨rfl, rfl,
   (maxTokens_capped demoCompletionRequest demoConfig "str_1" "sess_1" 0 7
      MembraneInit.ok (StreamOutcome.normal [] demoEndTurnResponse)
      (CompleteOutcome.ok demoEndTurnResponse) SMap.empty
      SMap.empty).2.2.1 rfl,
   (maxTokens_capped demoCompletionRequest demoConfig "str_1" "sess_1" 0 7
      MembraneInit.ok (StreamOutcome.normal [] demoEndTurnResponse)
      (CompleteOutcome.ok demoEndTurnResponse) SMap.empty
      SMap.empty).2.2.2.2.1 rfl⟩

/-! ## Claim C8 — registration silently overwrites, it does not fail -/

/-- C8 counterexample: registering a stream identifier that is already
present does not fail with a programming-error condition — the plain
`Map.set` silently replaces the stored cancellation handle (here an
already-aborted handle is replaced by a fresh one). -/
theorem register_overwrite_counterexample :
    (SMap.mk [("str_a", true)] : StreamRegistry).get "str_a" = some true
    ∧ (registerStream (SMap.mk [("str_a", true)]) "str_a").get "str_a"
        = some false
    ∧ (registerStream (SMap.mk [("str_a", true)]) "str_a").size = 1 :=
  ⟨rfl, rfl, rfl⟩

/-- C8 amended: `register` unconditionally stores a fresh (non-aborted)
handle under the identifier — silently overwriting any existing binding
— and leaves every other identifier untouched. -/
theorem register_stores_fresh_handle (streams : StreamRegistry)
    (streamId j : String) :
    (registerStream streams streamId).get streamId = some false
    ∧ (j ≠ streamId →
        (registerStream streams streamId).get j = streams.get j) :=
  ⟨SMap.get_set_self streams streamId false,
   fun h => SMap.get_set_ne streams streamId j false h⟩

/-- Witness for `register_stores_fresh_handle`. -/
theorem register_stores_fresh_handle_witness :
    ("str_b" : String) ≠ "str_a"
    ∧ (registerStream SMap.empty "str_a").get "str_a" = some false
    ∧ (registerStream SMap.empty "str_a").get "str_b" = SMap.empty.get "str_b" :=
  ⟨by decide,
   (register_stores_fresh_handle SMap.empty "str_a" "str_b").1,
   (register_stores_fresh_handle SMap.empty "str_a" "str_b").2 (by decide)⟩

/-! ## Claim C3 — abort succeeds exactly once per registered stream -/

theorem abortHandler_not_found (streams : StreamRegistry) (streamId : String)
    (h : streams.get streamId = none) :
    abortHandler streams streamId =
      { status := 404, code := some "stream_not_found", abortedFlag := false,
        streamId := none, signaled := false, streams := streams } := by
  simp [abortHandler, h]

/-- C3: an abort for a registered stream identifier signals the stored
handle, removes the entry, and reports success; a second abort for the
same identifier, or an abort for an unregistered identifier, reports
`stream_not_found` and leaves the registry unchanged. -/
theorem abort_succeeds_exactly_once (streams : StreamRegistry)
    (streamId : String) :
    (∀ h, streams.get streamId = some h →
        (abortHandler streams streamId).status = 200
        ∧ (abortHandler streams streamId).abortedFlag = true
        ∧ (abortHandler streams streamId).streamId = some streamId
        ∧ (abortHandler streams streamId).signaled = true
        ∧ (abortHandler streams streamId).streams.get streamId = none
        ∧ (∀ j, j ≠ streamId →
            (abortHandler streams streamId).streams.get j = streams.get j)
        ∧ (abortHandler (abortHandler streams streamId).streams
            streamId).status = 404
        ∧ (abortHandler (abortHandler streams streamId).streams
            streamId).streams = (abortHandler streams streamId).streams)
    ∧ (streams.get streamId = none →
        (abortHandler streams streamId).status = 404
        ∧ (abortHandler streams streamId).code = some "stream_not_found"
        ∧ (abortHandler streams streamId).streams = streams) := by
  constructor
  · intro h hh
    have hself : (abortHandler streams streamId).streams.get streamId = none := by
      simp only [abortHandler, hh, cleanupStream]
      exact SMap.get_delete_self _ _
    refine ⟨?_, ?_, ?_, ?_, hself, ?_, ?_, ?_⟩
    · simp [abortHandler, hh]
    · simp [abortHandler, hh]
    · simp [abortHandler, hh]
    · simp [abortHandler, hh]
    · intro j hj
      simp only [abortHandler, hh, cleanupStream]
      rw [SMap.get_delete_ne _ _ _ hj, SMap.get_set_ne _ _ _ _ hj]
    · rw [abortHandler_not_found _ _ hself]
    · rw [abortHandler_not_found _ _ hself]
  · intro hn
    refine ⟨?_, ?_, ?_⟩ <;> simp [abortHandler, hn]

/-- Witness for `abort_succeeds_exactly_once` on a registry holding one
live stream. -/
theorem abort_succeeds_exactly_once_witness :
    (SMap.mk [("str_a", false)] : StreamRegistry).get "str_a" = some false
    ∧ (abortHandler (SMap.mk [("str_a", false)]) "str_a").status = 200
    ∧ (abortHandler (SMap.mk [("str_a", false)]) "str_a").signaled = true
    ∧ (abortHandler (SMap.mk [("str_a", false)]) "str_a").streams.get "str_a"
        = none
    ∧ (abortHandler (abortHandler (SMap.mk [("str_a", false)]) "str_a").streams
        "str_a").status = 404 :=
  ⟨rfl,
   ((abort_succeeds_exactly_once (SMap.mk [("str_a", false)]) "str_a").1
      false rfl).1,
   ((abort_succeeds_exactly_once (SMap.mk [("str_a", false)]) "str_a").1
      false rfl).2.2.2.1,
   ((abort_succeeds_exactly_once (SMap.mk [("str_a", false)]) "str_a").1
      false rfl).2.2.2.2.1,
   ((abort_succeeds_exactly_once (SMap.mk [("str_a", false)]) "str_a").1
      false rfl).2.2.2.2.2.2.1⟩

/-! ## Claim C2 — registration and cleanup are paired on every exit path -/

theorem streamHandler_streams (config : Config) (req : CompletionRequest)
    (streamId sessionId : String) (now durationMs : Nat)
    (minit : MembraneInit) (outcome : StreamOutcome)
    (sessions0 : SMap SessionState) (streams0 : StreamRegistry) :
    (streamHandler config req streamId sessionId now durationMs minit outcome
        sessions0 streams0).streams
      = cleanupStream (registerStream streams0 streamId) streamId := by
  cases minit with
  | failed e => rfl
  | ok =>
      by_cases h : req.continueFrom.isSome
      · simp only [streamHandler, h, if_true, cleanupStream]
        exact SMap.delete_delete _ _
      · cases outcome <;>
          (simp only [streamHandler, h, Bool.false_eq_true, if_false]
           all_goals first | rfl | (split <;> rfl))

theorem contextStreamHandler_streams (config : Config) (req : ContextRequest)
    (streamId : String) (durationMs : Nat) (outcome : ContextOutcome)
    (streams0 : StreamRegistry) :
    (contextStreamHandler config req streamId durationMs outcome
        streams0).streams
      = cleanupStream (registerStream streams0 streamId) streamId := by
  cases outcome <;> rfl

theorem continueHandler_streams (body : ContinueBody) (streamId : String)
    (now durationMs : Nat) (outcome : StreamOutcome)
    (sessions0 : SMap SessionState) (streams0 : StreamRegistry) :
    (continueHandler body streamId now durationMs outcome sessions0
        streams0).streams = streams0
    ∨ (continueHandler body streamId now durationMs outcome sessions0
        streams0).streams
      = cleanupStream (registerStream streams0 streamId) streamId := by
  by_cases hv : continueBodyInvalid body
  · left
    simp [continueHandler, hv]
  · rcases hg : getSession sessions0 (body.sessionId.getD "") now with ⟨o, s1⟩
    cases o
    · left
      simp [continueHandler, hv, hg]
    · right
      cases outcome <;>
        (simp only [continueHandler, hv, hg, Bool.false_eq_true, if_false]
         all_goals first | rfl | (split <;> rfl))

/-- C2: for every round started by any of the three streaming handlers
(fresh stream, continuation, context stream) and every exit path (normal
completion, aborted outcome, thrown exception, or the `continueFrom`
rejection), the stream identifier registered at the start of the round
is absent from the Active-Stream Registry when the handler finishes, and
every other registry entry is untouched; a continuation run that never
registered (a rejected request) leaves the registry exactly as it was. -/
theorem stream_deregistered_on_every_exit
    (config : Config) (req : CompletionRequest) (body : ContinueBody)
    (creq : ContextRequest) (streamId sessionId : String)
    (now durationMs : Nat) (minit1 : MembraneInit)
    (oc1 oc2 : StreamOutcome) (oc3 : ContextOutcome)
    (sessions0 : SMap SessionState) (streams0 : StreamRegistry) :
    (streamHandler config req streamId sessionId now durationMs minit1 oc1
        sessions0 streams0).streams.get streamId = none
    ∧ ((continueHandler body streamId now durationMs oc2 sessions0
          streams0).streams.get streamId = none
        ∨ (continueHandler body streamId now durationMs oc2 sessions0
            streams0).streams = streams0)
    ∧ (contextStreamHandler config creq streamId durationMs oc3
        streams0).streams.get streamId = none
    ∧ (∀ j, j ≠ streamId →
        (streamHandler config req streamId sessionId now durationMs minit1
            oc1 sessions0 streams0).streams.get j = streams0.get j
        ∧ (continueHandler body streamId now durationMs oc2 sessions0
            streams0).streams.get j = streams0.get j
        ∧ (contextStreamHandler config creq streamId durationMs oc3
            streams0).streams.get j = streams0.get j) := by
  have hregself :
      (cleanupStream (registerStream streams0 streamId) streamId).get streamId
        = none := SMap.get_delete_self _ _
  have hreg : ∀ j, j ≠ streamId →
      (cleanupStream (registerStream streams0 streamId) streamId).get j
        = streams0.get j := by
    intro j hj
    unfold cleanupStream registerStream
    rw [SMap.get_delete_ne _ _ _ hj, SMap.get_set_ne _ _ _ _ hj]
  refine ⟨?_, ?_, ?_, ?_⟩
  · rw [streamHandler_streams]
    exact hregself
  · rcases continueHandler_streams body streamId now durationMs oc2 sessions0
        streams0 with h | h
    · right
      exact h
    · left
      rw [h]
      exact hregself
  · rw [contextStreamHandler_streams]
    exact hregself
  · intro j hj
    refine ⟨?_, ?_, ?_⟩
    · rw [streamHandler_streams]
      exact hreg j hj
    · rcases continueHandler_streams body streamId now durationMs oc2
          sessions0 streams0 with h | h
      · rw [h]
      · rw [h]
        exact hreg j hj
    · rw [contextStreamHandler_streams]
      exact hreg j hj

/-- Witness for `stream_deregistered_on_every_exit` at a concrete run of
each handler. -/
theorem stream_deregistered_on_every_exit_witness :
    (streamHandler demoConfig demoCompletionRequest "str_1" "sess_1" 0 7
        MembraneInit.ok (StreamOutcome.normal [] demoToolUseResponse)
        SMap.empty SMap.empty).streams.get "str_1" = none
    ∧ ("str_2" : String) ≠ "str_1"
    ∧ (streamHandler demoConfig demoCompletionRequest "str_1" "sess_1" 0 7
        MembraneInit.ok (StreamOutcome.normal [] demoToolUseResponse)
        SMap.empty SMap.empty).streams.get "str_2"
        = (SMap.empty : StreamRegistry).get "str_2"
    ∧ (continueHandler demoContinueBody "str_1" 0 7
        (StreamOutcome.thrown [] demoThrown)
        (SMap.empty.set "sess_1" demoSession) SMap.empty).streams.get "str_2"
        = (SMap.empty : StreamRegistry).get "str_2"
    ∧ (contextStreamHandler demoConfig demoContextRequest "str_1" 7
        (ContextOutcome.thrown [] demoThrown) SMap.empty).streams.get "str_1"
        = none :=
  ⟨(stream_deregistered_on_every_exit demoConfig demoCompletionRequest
      demoContinueBody demoContextRequest "str_1" "sess_1" 0 7
      MembraneInit.ok (StreamOutcome.normal [] demoToolUseResponse)
      (StreamOutcome.thrown [] demoThrown)
      (ContextOutcome.thrown [] demoThrown)
      (SMap.empty.set "sess_1" demoSession) SMap.empty).1,
   by decide,
   ((stream_deregistered_on_every_exit demoConfig demoCompletionRequest
      demoContinueBody demoContextRequest "str_1" "sess_1" 0 7
      MembraneInit.ok (StreamOutcome.normal [] demoToolUseResponse)
      (StreamOutcome.thrown [] demoThrown)
      (ContextOutcome.thrown [] demoThrown)
      (SMap.empty.set "sess_1" demoSession) SMap.empty).2.2.2 "str_2"
      (by decide)).1,
   ((stream_deregistered_on_every_exit demoConfig demoCompletionRequest
      demoContinueBody demoContextRequest "str_1" "sess_1" 0 7
      MembraneInit.ok (StreamOutcome.normal [] demoToolUseResponse)
      (StreamOutcome.thrown [] demoThrown)
      (ContextOutcome.thrown [] demoThrown)
      (SMap.empty.set "sess_1" demoSession) SMap.empty).2.2.2 "str_2"
      (by decide)).2.1,
   (stream_deregistered_on_every_exit demoConfig demoCompletionRequest
      demoContinueBody demoContextRequest "str_1" "sess_1" 0 7
      MembraneInit.ok (StreamOutcome.normal [] demoToolUseResponse)
      (StreamOutcome.thrown [] demoThrown)
      (ContextOutcome.thrown [] demoThrown)
      (SMap.empty.set "sess_1" demoSession) SMap.empty).2.2.1⟩

/-! ## Claim C1 — continueFrom on the fresh-stream endpoint -/

/-- The error `createMembrane` throws when neither the request nor the
server configuration resolves a credential (providers.ts). -/
def demoNoKeyError : ThrownError :=
  { isErrorInstance := true
    code := ThrownCode.absent
    message :=
      "No API key for Anthropic. Provide apiKey in request or configure ANTHROPIC_API_KEY." }

/-- C1 counterexample: on a fresh-stream request carrying
`continueFrom`, the handler does register a stream identifier in the
Active-Stream Registry (the registration at the top of the handler runs
before the `continueFrom` check), contradicting the claim that no
identifier is ever registered while handling such a request — though
(here, with the membrane adapter constructed successfully) the request
is rejected with the `use_continue_endpoint` error and the collaborator
is never invoked. -/
theorem continueFrom_registers_stream_counterexample :
    (streamHandler demoConfig
        { demoCompletionRequest with continueFrom := some "sess_prev" }
        "str_1" "sess_1" 0 7 MembraneInit.ok
        (StreamOutcome.normal [] demoToolUseResponse)
        SMap.empty SMap.empty).regOps.contains (RegOp.set "str_1") = true
    ∧ (streamHandler demoConfig
        { demoCompletionRequest with continueFrom := some "sess_prev" }
        "str_1" "sess_1" 0 7 MembraneInit.ok
        (StreamOutcome.normal [] demoToolUseResponse)
        SMap.empty SMap.empty).events
        = [Event.stream_start "str_1", Event.error useContinueError]
    ∧ (streamHandler demoConfig
        { demoCompletionRequest with continueFrom := some "sess_prev" }
        "str_1" "sess_1" 0 7 MembraneInit.ok
        (StreamOutcome.normal [] demoToolUseResponse)
        SMap.empty SMap.empty).invoked = false :=
  ⟨rfl, rfl, rfl⟩

/-- C1 amended: a fresh-stream request carrying `continueFrom` never
reaches the invocation collaborator and never touches the session store,
and although a stream identifier is registered at the top of the
handler, it is removed again before the handler returns (the final
registry has no entry for it and every other entry is untouched); the
single error event the client receives is `use_continue_endpoint`
directing it to the continuation endpoint when the membrane adapter was
constructed successfully, and the parsed construction failure (e.g.
`internal_error` for a missing API key) when `createMembrane` threw
before the `continueFrom` check was reached. -/
theorem continueFrom_rejected_without_invocation
    (config : Config) (req : CompletionRequest) (streamId sessionId : String)
    (now durationMs : Nat) (minit : MembraneInit) (outcome : StreamOutcome)
    (sessions0 : SMap SessionState) (streams0 : StreamRegistry)
    (h : req.continueFrom.isSome = true) :
    (minit = MembraneInit.ok →
        (streamHandler config req streamId sessionId now durationMs minit
            outcome sessions0 streams0).events
          = [Event.stream_start streamId, Event.error useContinueError])
    ∧ (∀ e, minit = MembraneInit.failed e →
        (streamHandler config req streamId sessionId now durationMs minit
            outcome sessions0 streams0).events
          = [Event.stream_start streamId, Event.error (parseError e)])
    ∧ (streamHandler config req streamId sessionId now durationMs minit
        outcome sessions0 streams0).invoked = false
    ∧ (streamHandler config req streamId sessionId now durationMs minit
        outcome sessions0 streams0).sentRequest = none
    ∧ (streamHandler config req streamId sessionId now durationMs minit
        outcome sessions0 streams0).sessions = sessions0
    ∧ (streamHandler config req streamId sessionId now durationMs minit
        outcome sessions0 streams0).streams.get streamId = none
    ∧ (∀ j, j ≠ streamId →
        (streamHandler config req streamId sessionId now durationMs minit
            outcome sessions0 streams0).streams.get j = streams0.get j) := by
  refine ⟨?_, ?_, ?_, ?_, ?_, ?_, ?_⟩
  · rintro rfl
    simp [streamHandler, h]
  · rintro e rfl
    rfl
  · cases minit with
    | failed e => rfl
    | ok => simp [streamHandler, h]
  · cases minit with
    | failed e => rfl
    | ok => simp [streamHandler, h]
  · cases minit with
    | failed e => rfl
    | ok => simp [streamHandler, h]
  · rw [streamHandler_streams]
    exact SMap.get_delete_self _ _
  · intro j hj
    rw [streamHandler_streams]
    unfold cleanupStream registerStream
    rw [SMap.get_delete_ne _ _ _ hj, SMap.get_set_ne _ _ _ _ hj]

/-- Witness for `continueFrom_rejected_without_invocation`, exercising
both the successful-construction path and the `createMembrane`-throws
path. -/
theorem continueFrom_rejected_without_invocation_witness :
    ({ demoCompletionRequest with
        continueFrom := some "sess_prev" } : CompletionRequest).continueFrom.isSome
      = true
    ∧ (streamHandler demoConfig
        { demoCompletionRequest with continueFrom := some "sess_prev" }
        "str_9" "sess_9" 0 7 MembraneInit.ok
        (StreamOutcome.normal [] demoToolUseResponse)
        SMap.empty SMap.empty).events
        = [Event.stream_start "str_9", Event.error useContinueError]
    ∧ (streamHandler demoConfig
        { demoCompletionRequest with continueFrom := some "sess_prev" }
        "str_9" "sess_9" 0 7 (MembraneInit.failed demoNoKeyError)
        (StreamOutcome.normal [] demoToolUseResponse)
        SMap.empty SMap.empty).events
        = [Event.stream_start "str_9", Event.error (parseError demoNoKeyError)]
    ∧ (streamHandler demoConfig
        { demoCompletionRequest with continueFrom := some "sess_prev" }
        "str_9" "sess_9" 0 7 MembraneInit.ok
        (StreamOutcome.normal [] demoToolUseResponse)
        SMap.empty SMap.empty).invoked = false
    ∧ (streamHandler demoConfig
        { demoCompletionRequest with continueFrom := some "sess_prev" }
        "str_9" "sess_9" 0 7 MembraneInit.ok
        (StreamOutcome.normal [] demoToolUseResponse)
        SMap.empty SMap.empty).streams.get "str_9" = none :=
  ⟨rfl,
   (continueFrom_rejected_without_invocation demoConfig
      { demoCompletionRequest with continueFrom := some "sess_prev" }
      "str_9" "sess_9" 0 7 MembraneInit.ok
      (StreamOutcome.normal [] demoToolUseResponse)
      SMap.empty SMap.empty rfl).1 rfl,
   (continueFrom_rejected_without_invocation demoConfig
      { demoCompletionRequest with continueFrom := some "sess_prev" }
      "str_9" "sess_9" 0 7 (MembraneInit.failed demoNoKeyError)
      (StreamOutcome.normal [] demoToolUseResponse)
      SMap.empty SMap.empty rfl).2.1 demoNoKeyError rfl,
   (continueFrom_rejected_without_invocation demoConfig
      { demoCompletionRequest with continueFrom := some "sess_prev" }
      "str_9" "sess_9" 0 7 MembraneInit.ok
      (StreamOutcome.normal [] demoToolUseResponse)
      SMap.empty SMap.empty rfl).2.2.1,
   (continueFrom_rejected_without_invocation demoConfig
      { demoCompletionRequest with continueFrom := some "sess_prev" }
      "str_9" "sess_9" 0 7 MembraneInit.ok
      (StreamOutcome.normal [] demoToolUseResponse)
      SMap.empty SMap.empty rfl).2.2.2.2.2.1⟩

/-! ## updateSession characterisation lemmas -/

theorem updateSession_live (sessions : SMap SessionState) (id : String)
    (updates : SessionUpdates) (now : Nat) (s : SessionState)
    (hs : sessions.get id = some s) (hlive : ¬ s.expiresAt < now) :
    updateSession sessions id updates now
      = (some { applyUpdates s updates with
                expiresAt := now + DEFAULT_SESSION_TTL_MS },
         sessions.set id
           { applyUpdates s updates with
             expiresAt := now + DEFAULT_SESSION_TTL_MS }) := by
  simp [updateSession, getSession, hs, hlive]

theorem updateSession_absent (sessions : SMap SessionState) (id : String)
    (updates : SessionUpdates) (now : Nat)
    (hn : sessions.get id = none) :
    updateSession sessions id updates now = (none, sessions) := by
  simp [updateSession, getSession, hn]

theorem updateSession_expired (sessions : SMap SessionState) (id : String)
    (updates : SessionUpdates) (now : Nat) (s : SessionState)
    (hs : sessions.get id = some s) (hexp : s.expiresAt < now) :
    updateSession sessions id updates now = (none, sessions.delete id) := by
  simp [updateSession, getSession, hs, hexp]

/-! ## Claim C5 — update resets expiry to the fixed default, not the
creation ttl -/

/-- C5 counterexample: a session created with `ttlMs = 1000` at time 0
expires at 1000; an update at time 500 sets `expiresAt` to
`500 + 300000 = 300500`, not `500 + 1000` — `updateSession` uses the
hard-coded 5-minute default, not the ttl the session was created with. -/
theorem update_ttl_counterexample :
    (createSession SMap.empty "anthropic" demoNormalizedRequest demoInitState
        { apiKey := none, providerConfig := none, membraneOptions := none,
          ttlMs := some 1000 } "sess_t" 0).1.expiresAt = 1000
    ∧ ((updateSession
          (createSession SMap.empty "anthropic" demoNormalizedRequest
            demoInitState
            { apiKey := none, providerConfig := none, membraneOptions := none,
              ttlMs := some 1000 } "sess_t" 0).2
          "sess_t" noUpdates 500).1.map SessionState.expiresAt) = some 300500
    ∧ (300500 : Nat) ≠ 500 + 1000 :=
  ⟨rfl, rfl, by decide⟩

/-- C5 amended: an update on a live session merges the supplied fields
and resets `expiresAt` to `now` plus the store's fixed default TTL
(5 minutes) — regardless of how close the session was to expiring and
regardless of the ttl it was created with; an update on an absent
session changes nothing, and on an expired session only evicts it. -/
theorem update_resets_default_ttl (sessions : SMap SessionState)
    (id : String) (updates : SessionUpdates) (now : Nat) :
    (∀ s, sessions.get id = some s → ¬ s.expiresAt < now →
        updateSession sessions id updates now
          = (some { applyUpdates s updates with
                    expiresAt := now + DEFAULT_SESSION_TTL_MS },
             sessions.set id
               { applyUpdates s updates with
                 expiresAt := now + DEFAULT_SESSION_TTL_MS }))
    ∧ (sessions.get id = none →
        updateSession sessions id updates now = (none, sessions))
    ∧ (∀ s, sessions.get id = some s → s.expiresAt < now →
        updateSession sessions id updates now = (none, sessions.delete id)) :=
  ⟨fun s hs hlive => updateSession_live sessions id updates now s hs hlive,
   fun hn => updateSession_absent sessions id updates now hn,
   fun s hs hexp => updateSession_expired sessions id updates now s hs hexp⟩

/-- Witness for `update_resets_default_ttl`: updating the demo session
half-way to expiry pushes its expiry to `now + 300000`. -/
theorem update_resets_default_ttl_witness :
    (SMap.empty.set "sess_1" demoSession).get "sess_1" = some demoSession
    ∧ ¬ demoSession.expiresAt < 500000
    ∧ updateSession (SMap.empty.set "sess_1" demoSession) "sess_1" noUpdates
        500000
      = (some { applyUpdates demoSession noUpdates with
                expiresAt := 500000 + DEFAULT_SESSION_TTL_MS },
         (SMap.empty.set "sess_1" demoSession).set "sess_1"
           { applyUpdates demoSession noUpdates with
             expiresAt := 500000 + DEFAULT_SESSION_TTL_MS }) :=
  ⟨rfl, by decide,
   (update_resets_default_ttl (SMap.empty.set "sess_1" demoSession) "sess_1"
      noUpdates 500000).1 demoSession rfl (by decide)⟩

/-! ## Claim C6 — continuation round accumulation -/

/-- C6: on a continuation round that again stops for tool use, the
merged session concatenates the raw assistant text, replaces the content
blocks and tool calls with the new round's, and sums the usage totals
component-wise with the previous running totals. -/
theorem continuation_accumulation (body : ContinueBody) (sid : String)
    (trs : List ToolResult) (session : SessionState) (streamId : String)
    (now durationMs : Nat) (mid : List MidEvent) (resp : NormalizedResponse)
    (sessions0 : SMap SessionState) (streams0 : StreamRegistry)
    (hsid : body.sessionId = some sid) (hne : (sid == "") = false)
    (htr : body.toolResults = some trs)
    (hget : sessions0.get sid = some session)
    (hlive : ¬ session.expiresAt < now)
    (htool : resp.stopReason = "tool_use") (hcalls : resp.toolCalls ≠ []) :
    ((continueHandler body streamId now durationMs
        (StreamOutcome.normal mid resp) sessions0
        streams0).sessions.get sid).map SessionState.rawAssistantText
      = some (session.rawAssistantText ++ resp.rawAssistantText)
    ∧ ((continueHandler body streamId now durationMs
        (StreamOutcome.normal mid resp) sessions0
        streams0).sessions.get sid).map SessionState.contentBlocks
      = some resp.content
    ∧ ((continueHandler body streamId now durationMs
        (StreamOutcome.normal mid resp) sessions0
        streams0).sessions.get sid).map SessionState.toolCalls
      = some resp.toolCalls
    ∧ ((continueHandler body streamId now durationMs
        (StreamOutcome.normal mid resp) sessions0
        streams0).sessions.get sid).map SessionState.usage
      = some { inputTokens := session.usage.inputTokens + resp.usage.inputTokens
               outputTokens :=
                 session.usage.outputTokens + resp.usage.outputTokens } := by
  have hv : continueBodyInvalid body = false := by
    simp [continueBodyInvalid, hsid, htr, hne]
  have hg : getSession sessions0 sid now = (some session, sessions0) := by
    simp [getSession, hget, hlive]
  have hcond : (decide (resp.toolCalls.length > 0)
      && (resp.stopReason == "tool_use")) = true := by
    simp [htool, List.length_pos, hcalls]
  unfold continueHandler
  simp only [hv, Bool.false_eq_true, if_false, hsid, htr, Option.getD_some,
    hg, hcond, if_true]
  rw [updateSession_live _ _ _ _
    { session with
      executedToolResults := session.executedToolResults ++ trs }
    (SMap.get_set_self _ _ _) hlive]
  simp [SMap.get_set_self, applyUpdates]

/-- Witness for `continuation_accumulation`: a session with usage
`{in 10, out 5}` continuing into a round reporting `{in 3, out 2}` ends
with usage `{in 13, out 7}`. -/
theorem continuation_accumulation_witness :
    demoSession.usage = { inputTokens := 10, outputTokens := 5 }
    ∧ demoSecondRoundResponse.usage = { inputTokens := 3, outputTokens := 2 }
    ∧ (SMap.empty.set "sess_1" demoSession).get "sess_1" = some demoSession
    ∧ ((continueHandler demoContinueBody "str_1" 100 7
        (StreamOutcome.normal [] demoSecondRoundResponse)
        (SMap.empty.set "sess_1" demoSession)
        SMap.empty).sessions.get "sess_1").map SessionState.usage
      = some { inputTokens := 13, outputTokens := 7 }
    ∧ ((continueHandler demoContinueBody "str_1" 100 7
        (StreamOutcome.normal [] demoSecondRoundResponse)
        (SMap.empty.set "sess_1" demoSession)
        SMap.empty).sessions.get "sess_1").map SessionState.rawAssistantText
      = some (demoSession.rawAssistantText
          ++ demoSecondRoundResponse.rawAssistantText) :=
  ⟨rfl, rfl, rfl,
   (continuation_accumulation demoContinueBody "sess_1" [demoToolResult]
      demoSession "str_1" 100 7 [] demoSecondRoundResponse
      (SMap.empty.set "sess_1" demoSession) SMap.empty
      rfl rfl rfl rfl (by decide) rfl (by decide)).2.2.2,
   (continuation_accumulation demoContinueBody "sess_1" [demoToolResult]
      demoSession "str_1" 100 7 [] demoSecondRoundResponse
      (SMap.empty.set "sess_1" demoSession) SMap.empty
      rfl rfl rfl rfl (by decide) rfl (by decide)).1⟩

/-! ## Claim C7 — continuation rejections perform no invocation -/

/-- C7: a continuation request with a missing/empty session id or a
missing/non-array tool-result list is rejected with `invalid_request`,
and one whose session lookup misses (unknown or expired) is rejected
with `session_not_found`; in both cases the collaborator is never
invoked and no stream identifier is registered. -/
theorem continue_rejections (body : ContinueBody) (streamId : String)
    (now durationMs : Nat) (outcome : StreamOutcome)
    (sessions0 : SMap SessionState) (streams0 : StreamRegistry) :
    (continueBodyInvalid body = true →
        continueHandler body streamId now durationMs outcome sessions0 streams0
          = { out := ContinueOut.rejected 400 "invalid_request"
              sessions := sessions0
              streams := streams0
              regOps := []
              invoked := false
              sentRequest := none })
    ∧ (continueBodyInvalid body = false →
        (getSession sessions0 (body.sessionId.getD "") now).1 = none →
        (continueHandler body streamId now durationMs outcome sessions0
            streams0).out = ContinueOut.rejected 404 "session_not_found"
        ∧ (continueHandler body streamId now durationMs outcome sessions0
            streams0).invoked = false
        ∧ (continueHandler body streamId now durationMs outcome sessions0
            streams0).regOps = []
        ∧ (continueHandler body streamId now durationMs outcome sessions0
            streams0).streams = streams0
        ∧ (continueHandler body streamId now durationMs outcome sessions0
            streams0).sentRequest = none) := by
  constructor
  · intro hv
    simp [continueHandler, hv]
  · intro hv hmiss
    rcases hg : getSession sessions0 (body.sessionId.getD "") now with ⟨o, s1⟩
    rw [hg] at hmiss
    cases o with
    | some s => exact absurd hmiss (by simp)
    | none =>
        refine ⟨?_, ?_, ?_, ?_, ?_⟩ <;>
          simp [continueHandler, hv, hg]

/-- Witness for `continue_rejections`: a body without tool results is
rejected 400; a valid body against an empty store is rejected 404. -/
theorem continue_rejections_witness :
    continueBodyInvalid { sessionId := some "sess_1", toolResults := none }
      = true
    ∧ (continueHandler { sessionId := some "sess_1", toolResults := none }
        "str_1" 0 7 (StreamOutcome.normal [] demoEndTurnResponse)
        SMap.empty SMap.empty)
      = { out := ContinueOut.rejected 400 "invalid_request"
          sessions := SMap.empty
          streams := SMap.empty
          regOps := []
          invoked := false
          sentRequest := none }
    ∧ continueBodyInvalid demoContinueBody = false
    ∧ (getSession SMap.empty (demoContinueBody.sessionId.getD "") 0).1 = none
    ∧ (continueHandler demoContinueBody "str_1" 0 7
        (StreamOutcome.normal [] demoEndTurnResponse) SMap.empty
        SMap.empty).out = ContinueOut.rejected 404 "session_not_found"
    ∧ (continueHandler demoContinueBody "str_1" 0 7
        (StreamOutcome.normal [] demoEndTurnResponse) SMap.empty
        SMap.empty).regOps = [] :=
  ⟨rfl,
   (continue_rejections { sessionId := some "sess_1", toolResults := none }
      "str_1" 0 7 (StreamOutcome.normal [] demoEndTurnResponse)
      SMap.empty SMap.empty).1 rfl,
   rfl, rfl,
   ((continue_rejections demoContinueBody "str_1" 0 7
      (StreamOutcome.normal [] demoEndTurnResponse) SMap.empty
      SMap.empty).2 rfl rfl).1,
   ((continue_rejections demoContinueBody "str_1" 0 7
      (StreamOutcome.normal [] demoEndTurnResponse) SMap.empty
      SMap.empty).2 rfl rfl).2.2.1⟩

/-! ## Claim C9 — executed tool results are pushed directly, bypassing
the store -/

/-- C9 counterexample: a continuation run whose invocation throws leaves
the session with the tool results appended (`executedToolResults.push`
runs before the invocation, mutating the record in place) but with its
expiration clock untouched — a session mutation that did not go through
`updateSession` and did not reset `expiresAt`. -/
theorem direct_push_counterexample :
    (((continueHandler
        { sessionId := some "sess_9", toolResults := some [demoToolResult] }
        "str_9" 100 7 (StreamOutcome.thrown [] demoThrown)
        (SMap.empty.set "sess_9"
          { demoSession with id := "sess_9", expiresAt := 999999 })
        SMap.empty).sessions.get "sess_9").map
        SessionState.executedToolResults) = some [demoToolResult]
    ∧ (((continueHandler
        { sessionId := some "sess_9", toolResults := some [demoToolResult] }
        "str_9" 100 7 (StreamOutcome.thrown [] demoThrown)
        (SMap.empty.set "sess_9"
          { demoSession with id := "sess_9", expiresAt := 999999 })
        SMap.empty).sessions.get "sess_9").map SessionState.expiresAt)
      = some 999999
    ∧ (999999 : Nat) ≠ 100 + DEFAULT_SESSION_TTL_MS :=
  ⟨rfl, rfl, by decide⟩

/-- C9 amended: the continuation handler appends executed tool results
by mutating the session record directly — on a round whose invocation
throws, the stored session is exactly the old record with the results
appended and the expiration clock unchanged; only the round-accumulation
merge of a further tool-use round goes through `updateSession` and
resets the expiration clock. -/
theorem session_mutation_policy (body : ContinueBody) (sid : String)
    (trs : List ToolResult) (session : SessionState) (streamId : String)
    (now durationMs : Nat) (mid mid2 : List MidEvent) (e : ThrownError)
    (resp : NormalizedResponse)
    (sessions0 : SMap SessionState) (streams0 : StreamRegistry)
    (hsid : body.sessionId = some sid) (hne : (sid == "") = false)
    (htr : body.toolResults = some trs)
    (hget : sessions0.get sid = some session)
    (hlive : ¬ session.expiresAt < now)
    (htool : resp.stopReason = "tool_use") (hcalls : resp.toolCalls ≠ []) :
    ((continueHandler body streamId now durationMs
        (StreamOutcome.thrown mid e) sessions0 streams0).sessions.get sid)
      = some { session with
               executedToolResults := session.executedToolResults ++ trs }
    ∧ ((continueHandler body streamId now durationMs
        (StreamOutcome.normal mid2 resp) sessions0
        streams0).sessions.get sid).map SessionState.expiresAt
      = some (now + DEFAULT_SESSION_TTL_MS)
    ∧ ((continueHandler body streamId now durationMs
        (StreamOutcome.normal mid2 resp) sessions0
        streams0).sessions.get sid).map SessionState.executedToolResults
      = some (session.executedToolResults ++ trs) := by
  have hv : continueBodyInvalid body = false := by
    simp [continueBodyInvalid, hsid, htr, hne]
  have hg : getSession sessions0 sid now = (some session, sessions0) := by
    simp [getSession, hget, hlive]
  have hcond : (decide (resp.toolCalls.length > 0)
      && (resp.stopReason == "tool_use")) = true := by
    simp [htool, List.length_pos, hcalls]
  refine ⟨?_, ?_, ?_⟩
  · unfold continueHandler
    simp only [hv, Bool.false_eq_true, if_false, hsid, htr, Option.getD_some,
      hg]
    exact SMap.get_set_self _ _ _
  · unfold continueHandler
    simp only [hv, Bool.false_eq_true, if_false, hsid, htr, Option.getD_some,
      hg, hcond, if_true]
    rw [updateSession_live _ _ _ _
      { session with
        executedToolResults := session.executedToolResults ++ trs }
      (SMap.get_set_self _ _ _) hlive]
    simp [SMap.get_set_self, applyUpdates]
  · unfold continueHandler
    simp only [hv, Bool.false_eq_true, if_false, hsid, htr, Option.getD_some,
      hg, hcond, if_true]
    rw [updateSession_live _ _ _ _
      { session with
        executedToolResults := session.executedToolResults ++ trs }
      (SMap.get_set_self _ _ _) hlive]
    simp [SMap.get_set_self, applyUpdates]

/-- Witness for `session_mutation_policy` on the demo session. -/
theorem session_mutation_policy_witness :
    (SMap.empty.set "sess_1" demoSession).get "sess_1" = some demoSession
    ∧ ((continueHandler demoContinueBody "str_1" 100 7
        (StreamOutcome.thrown [] demoThrown)
        (SMap.empty.set "sess_1" demoSession) SMap.empty).sessions.get "sess_1")
      = some { demoSession with
               executedToolResults :=
                 demoSession.executedToolResults ++ [demoToolResult] }
    ∧ ((continueHandler demoContinueBody "str_1" 100 7
        (StreamOutcome.normal [] demoSecondRoundResponse)
        (SMap.empty.set "sess_1" demoSession)
        SMap.empty).sessions.get "sess_1").map SessionState.expiresAt
      = some (100 + DEFAULT_SESSION_TTL_MS) :=
  ⟨rfl,
   (session_mutation_policy demoContinueBody "sess_1" [demoToolResult]
      demoSession "str_1" 100 7 [] [] demoThrown demoSecondRoundResponse
      (SMap.empty.set "sess_1" demoSession) SMap.empty
      rfl rfl rfl rfl (by decide) rfl (by decide)).1,
   (session_mutation_policy demoContinueBody "sess_1" [demoToolResult]
      demoSession "str_1" 100 7 [] [] demoThrown demoSecondRoundResponse
      (SMap.empty.set "sess_1" demoSession) SMap.empty
      rfl rfl rfl rfl (by decide) rfl (by decide)).2.1⟩

end MembraneApi
